import Mathlib

/-!
Verification of the core HTTP transport engine of the axiom-go client
library against its natural-language specification.

The development shallowly embeds the relevant parts of the repository:

* `src/axiom/query/aggregation_string.go` — the generated stringer for
  `AggregationOp` (embedded directly from the source).
* `src/unnamed/part_000` (users.go) — `UserRole`, `userRoleFromString`,
  `MarshalJSON`/`UnmarshalJSON` (embedded directly from the source; the
  `String` method is generated by the `-linecomment` stringer directive in
  that file, so its values are the line comments of the constants).
* The transport core (client.go, options.go, limit.go) is not part of the
  provided sources — only its test file `src/axiom/client_test.go` is.
  Those parts are modelled from the specification, with doc comments
  starting `Modelled from the spec:`.

Machine integers are modelled as `Nat`/`Int`; all relevant Go values
(uint8 enum tags, counters, unix timestamps) stay far below any overflow
boundary in the scenarios the claims exercise.
-/

set_option maxRecDepth 8192

/-! ## Generated stringer for `AggregationOp`
(src/axiom/query/aggregation_string.go) -/

/-- The `_AggregationOp_name` constant of the generated stringer file,
embedded verbatim. -/
def aggregationOpName : String :=
  "countdistinctsumavgminmaxtopkpercentileshistogramvariancestdevcountifdistinctif"

/-- The `_AggregationOp_index` array of the generated stringer file,
embedded verbatim. -/
def aggregationOpIndex : List Nat :=
  [0, 0, 5, 13, 16, 19, 22, 25, 29, 40, 49, 57, 62, 69, 79]

/-- `AggregationOp.String` from the generated stringer file:
`if i >= AggregationOp(len(_AggregationOp_index)-1)` return the fallback
`"AggregationOp(" + strconv.FormatInt(int64(i), 10) + ")"`, else slice
`_AggregationOp_name[_AggregationOp_index[i]:_AggregationOp_index[i+1]]`.
The Go string slice is byte-indexed; `aggregationOpName` is pure ASCII so
character indexing coincides with byte indexing. -/
def aggregationOpString (i : Nat) : String :=
  if aggregationOpIndex.length - 1 ≤ i then
    "AggregationOp(" ++ toString i ++ ")"
  else
    ((aggregationOpName.drop (aggregationOpIndex.getD i 0)).take
      (aggregationOpIndex.getD (i + 1) 0 - aggregationOpIndex.getD i 0))

example : aggregationOpString 0 = "" := rfl
example : aggregationOpString 1 = "count" := rfl
example : aggregationOpString 11 = "stdev" := rfl
example : aggregationOpString 14 = "AggregationOp(14)" := rfl

/-! ## `UserRole` (src/unnamed/part_000, users.go) -/

/-- The `UserRole` enumeration from users.go: `RoleCustom = iota`,
`RoleNone`, `RoleReadOnly`, `RoleUser`, `RoleAdmin`, `RoleOwner`. -/
inductive UserRole where
  | custom
  | none
  | readOnly
  | user
  | admin
  | owner
deriving DecidableEq, Repr

/-- `UserRole.String`, generated by the `-linecomment` stringer directive in
users.go: each constant stringifies to its line comment (`custom`, `none`,
`read-only`, `user`, `admin`, `owner`). -/
def UserRole.string : UserRole → String
  | .custom => "custom"
  | .none => "none"
  | .readOnly => "read-only"
  | .user => "user"
  | .admin => "admin"
  | .owner => "owner"

/-- `userRoleFromString` from users.go: a switch on the string forms of the
five named roles, defaulting to `RoleCustom`. -/
def userRoleFromString (s : String) : UserRole :=
  if s = UserRole.none.string then .none
  else if s = UserRole.readOnly.string then .readOnly
  else if s = UserRole.user.string then .user
  else if s = UserRole.admin.string then .admin
  else if s = UserRole.owner.string then .owner
  else .custom

/-- JSON values, the level at which `encoding/json` hands data to the
`UserRole` marshal/unmarshal methods. -/
inductive Json where
  | str (s : String)
  | num (n : Int)
  | bool (b : Bool)
  | null
  | arr (elems : List Json)
  | obj (fields : List (String × Json))

/-- `UserRole.MarshalJSON` from users.go: marshals the role as the JSON
string of its `String()` form. -/
def UserRole.marshalJSON (ur : UserRole) : Json :=
  .str ur.string

/-- `UserRole.UnmarshalJSON` from users.go: `json.Unmarshal(b, &s)` into a
Go `string` succeeds exactly when the JSON value is a string, and then the
role is `userRoleFromString s`. Any non-string JSON value makes
`json.Unmarshal` return an error, which the method propagates. -/
def UserRole.unmarshalJSON : Json → Except String UserRole
  | .str s => .ok (userRoleFromString s)
  | _ => .error "cannot unmarshal into value of type string"

example : UserRole.unmarshalJSON (UserRole.marshalJSON .admin) = .ok .admin := rfl
example : UserRole.unmarshalJSON (UserRole.marshalJSON .custom) = .ok .custom := rfl
example : userRoleFromString "root" = .custom := rfl

/-! ## Credential classification and the API-token path allowlist
(modelled from the spec; client.go is not among the provided sources) -/

/-- Modelled from the spec: token classification by prefix — `xapt-` is a
personal token. -/
def isPersonalToken (t : String) : Bool :=
  List.isPrefixOf "xapt-".toList t.toList

/-- Modelled from the spec: token classification by prefix — `xaat-` is an
API token. -/
def isAPIToken (t : String) : Bool :=
  List.isPrefixOf "xaat-".toList t.toList

/-- Splits a character list at the first `'?'`: the part before it and,
when a `'?'` occurs, the part after it.  Used to peel the optional query
string off a request path. -/
def splitAtQuery : List Char → List Char × Option (List Char)
  | [] => ([], none)
  | c :: cs =>
    if c = '?' then ([], some cs)
    else
      let r := splitAtQuery cs
      (c :: r.1, r.2)

/-- After a non-empty first character of the `{name}` segment, scan to the
`/` that ends the segment and require the rest to be exactly `ingest` or
`query`. -/
def nameSegRest : List Char → Bool
  | [] => false
  | c :: cs =>
    if c = '/' then cs = "ingest".toList || cs = "query".toList
    else nameSegRest cs

/-- Matches `{name}/ingest` or `{name}/query` with a non-empty `{name}`
segment (a segment contains no `/`). -/
def nameSeg : List Char → Bool
  | [] => false
  | c :: cs => if c = '/' then false else nameSegRest cs

/-- The character list of the fixed `/api/v1/datasets/` stem. -/
def datasetsStem : List Char := "/api/v1/datasets/".toList

/-- Modelled from the spec: the part of an allowed path after the
`/api/v1/datasets/` stem is either the literal `_apl` or a non-empty
`{name}` segment followed by `/ingest` or `/query`. -/
def allowedTail (cs : List Char) : Bool :=
  cs = "_apl".toList || nameSeg cs

/-- Modelled from the spec: the `validOnlyAPITokenPaths` allowlist of
client.go.  A path is allowed iff, after removing an optional non-empty
query string introduced by the first `'?'`, it is
`/api/v1/datasets/{name}/ingest`, `/api/v1/datasets/{name}/query` with a
non-empty `{name}` segment, or `/api/v1/datasets/_apl`. -/
def validOnlyAPITokenPaths (s : String) : Bool :=
  let r := splitAtQuery s.toList
  (List.isPrefixOf datasetsStem r.1 && allowedTail (r.1.drop datasetsStem.length))
    && (match r.2 with
        | none => true
        | some qs => !qs.isEmpty)

example : validOnlyAPITokenPaths "/api/v1/datasets/test/ingest" = true := by decide
example : validOnlyAPITokenPaths "/api/v1/datasets/test/ingest?timestamp-format=unix" = true := by decide
example : validOnlyAPITokenPaths "/api/v1/datasets/test/query" = true := by decide
example : validOnlyAPITokenPaths "/api/v1/datasets/_apl" = true := by decide
example : validOnlyAPITokenPaths "/api/v1/datasets/test/query?nocache=true" = true := by decide
example : validOnlyAPITokenPaths "/api/v1/datasets/_apl?nocache=true" = true := by decide
example : validOnlyAPITokenPaths "/api/v1/datasets//query" = false := by decide
example : validOnlyAPITokenPaths "/api/v1/datasets/query" = false := by decide
example : validOnlyAPITokenPaths "/api/v1/datasets/test/elastic" = false := by decide
example : validOnlyAPITokenPaths "/" = false := by decide
example : validOnlyAPITokenPaths "/v1/user" = false := by decide

/-! ## Limits (modelled from the spec; limit.go is not among the provided
sources).  Time is modelled in whole Unix seconds. -/

/-- Modelled from the spec: the scope dimension of a Limit — one of
unknown, user, organization, anonymous. -/
inductive LimitScope where
  | unknown
  | user
  | organization
  | anonymous
deriving DecidableEq, Repr

/-- Modelled from the spec: `LimitScope.String`, matching the wire header
values (`user`, `organization`, `anonymous`) and `unknown` otherwise. -/
def LimitScope.string : LimitScope → String
  | .unknown => "unknown"
  | .user => "user"
  | .organization => "organization"
  | .anonymous => "anonymous"

/-- Modelled from the spec: the kind dimension of a Limit — one of rate,
query, ingest. -/
inductive LimitType where
  | rate
  | query
  | ingest
deriving DecidableEq, Repr

/-- Modelled from the spec: the string form of a limit kind, as used in the
local short-circuit message. -/
def LimitType.string : LimitType → String
  | .rate => "rate"
  | .query => "query"
  | .ingest => "ingest"

/-- Modelled from the spec: a Limit is the tuple
(scope, kind, ceiling, remaining, reset-at), with reset-at in Unix
seconds. -/
structure Limit where
  scope : LimitScope
  limitType : LimitType
  limit : Nat
  remaining : Nat
  reset : Int
deriving DecidableEq, Repr

/-- The zero Limit, attached to a Response when the server reported no
limit headers. -/
def Limit.zero : Limit :=
  { scope := .unknown, limitType := .rate, limit := 0, remaining := 0, reset := 0 }

/-- Modelled from the spec: the wire mapping from the scope header value to
the Scope enum (`user`, `organization`, `anonymous`; other/absent →
Unknown). -/
def limitScopeFromString (s : String) : LimitScope :=
  if s = "user" then .user
  else if s = "organization" then .organization
  else if s = "anonymous" then .anonymous
  else .unknown

/-! ## Error taxonomy (modelled from the spec) -/

/-- Modelled from the spec: the typed error surface of the client —
sentinels `ErrMissingAccessToken`, `ErrMissingOrganizationID`,
`ErrUnauthenticated`, `ErrUnauthorized`, `ErrUnprivilegedToken`, instance
errors `APIError` and `LimitError`, plus transport (network/URL)
errors returned verbatim. -/
inductive ClientError where
  | missingAccessToken
  | missingOrganizationID
  | unauthenticated
  | unauthorized
  | unprivilegedToken
  | urlError (op : String)
  | apiError (status : Nat) (message : String)
  | limitError (limit : Limit) (message : String)
  | netError
deriving DecidableEq, Repr

/-- Modelled from the spec: `time.Duration.String` restricted to
non-negative whole seconds (`LimitError.Error` truncates the remaining
duration to seconds before printing), e.g. 59 → `59s`, 3599 → `59m59s`,
3600 → `1h0m0s`. -/
def durationString (secs : Nat) : String :=
  if secs < 60 then toString secs ++ "s"
  else if secs < 3600 then toString (secs / 60) ++ "m" ++ toString (secs % 60) ++ "s"
  else
    toString (secs / 3600) ++ "h" ++ toString ((secs % 3600) / 60) ++ "m"
      ++ toString (secs % 60) ++ "s"

/-- The non-negative number of whole seconds from `now` until `reset`. -/
def secondsUntil (now reset : Int) : Nat :=
  (reset - now).toNat

/-- Modelled from the spec: `LimitError.Error()` — the message followed by
`: try again in <remaining-until-reset>`, evaluated at wall-clock time
`now`. -/
def limitErrorString (l : Limit) (message : String) (now : Int) : String :=
  message ++ ": try again in " ++ durationString (secondsUntil now l.reset)

example : durationString 3599 = "59m59s" := rfl
example : durationString 3600 = "1h0m0s" := rfl
example : durationString 0 = "0s" := rfl

/-! ## Config assembler (modelled from the spec; options.go / client.go are
not among the provided sources) -/

/-- Modelled from the spec: the fixed cloud base URL that is the default
and against which the organization-id requirement is checked. -/
def cloudURL : String := "https://cloud.axiom.co"

/-- Modelled from the spec: a trailing slash on a configured URL is
normalized away before comparison/resolution. -/
def normalizeURL (u : String) : String :=
  if u.toList.getLast? = some '/' then String.mk u.toList.dropLast else u

/-- Modelled from the spec: the client configuration — base URL, access
token, optional organization id, user-agent, strict-decoding flag,
disable-environment flag, disable-client-side-limiting flag.  (The HTTP
transport handle carries no logic relevant to the claims and is omitted.) -/
structure Config where
  baseURL : String
  accessToken : String
  orgID : String
  userAgent : String
  strictDecoding : Bool
  noEnv : Bool
  noLimiting : Bool
deriving DecidableEq, Repr

/-- Modelled from the spec: the defaults — cloud base URL, a user-agent
identifying the library, strict-decoding off, no-env off, no-limiting
off. -/
def defaultConfig : Config :=
  { baseURL := cloudURL, accessToken := "", orgID := "", userAgent := "axiom-go",
    strictDecoding := false, noEnv := false, noLimiting := false }

/-- Modelled from the spec: the programmatic configuration options. -/
inductive ClientOption where
  | setURL (u : String)
  | setAccessToken (t : String)
  | setOrgID (id : String)
  | setUserAgent (s : String)
  | setNoEnv
  | setNoLimiting
  | setStrictDecoding (b : Bool)
deriving DecidableEq, Repr

/-- Modelled from the spec: the effect of a single option on a config
draft. -/
def applyOption (c : Config) : ClientOption → Config
  | .setURL u => { c with baseURL := normalizeURL u }
  | .setAccessToken t => { c with accessToken := t }
  | .setOrgID id => { c with orgID := id }
  | .setUserAgent s => { c with userAgent := s }
  | .setNoEnv => { c with noEnv := true }
  | .setNoLimiting => { c with noLimiting := true }
  | .setStrictDecoding b => { c with strictDecoding := b }

/-- The relevant process environment: values of `AXIOM_URL`, `AXIOM_TOKEN`
and `AXIOM_ORG_ID` (absent variables are `none`). -/
structure Env where
  url : Option String
  token : Option String
  orgID : Option String

/-- The empty environment. -/
def Env.empty : Env := { url := none, token := none, orgID := none }

/-- Modelled from the spec: environment ingestion — `AXIOM_URL` (trailing
slash normalized like any configured URL), `AXIOM_TOKEN` and
`AXIOM_ORG_ID` override the defaults. -/
def applyEnv (c : Config) (env : Env) : Config :=
  let c := match env.url with | some u => { c with baseURL := normalizeURL u } | none => c
  let c := match env.token with | some t => { c with accessToken := t } | none => c
  match env.orgID with | some id => { c with orgID := id } | none => c

/-- Modelled from the spec: configuration assembly with deterministic
precedence — defaults, then (unless a disable-environment option is among
the options) the environment, then the options in order, so that options
override environment values and the environment overrides defaults. -/
def assembleConfig (env : Env) (opts : List ClientOption) : Config :=
  let noEnv := opts.contains ClientOption.setNoEnv
  let c := defaultConfig
  let c := if noEnv then c else applyEnv c env
  opts.foldl applyOption c

/-- Modelled from the spec: config validation — `ErrMissingAccessToken`
when no token is configured; `ErrMissingOrganizationID` when a
non-API token is used against the cloud base URL without an organization
id (API tokens never require one). -/
def validateConfig (c : Config) : Except ClientError Config :=
  if c.accessToken = "" then .error .missingAccessToken
  else if c.baseURL = cloudURL && !isAPIToken c.accessToken && c.orgID = "" then
    .error .missingOrganizationID
  else .ok c

/-- Modelled from the spec: `NewClient` — assemble the configuration from
defaults, environment and options, then validate it. -/
def newClient (env : Env) (opts : List ClientOption) : Except ClientError Config :=
  validateConfig (assembleConfig env opts)

example : newClient Env.empty [] = .error .missingAccessToken := rfl
example : newClient Env.empty [.setAccessToken "xapt-123"] = .error .missingOrganizationID := rfl
example : (newClient Env.empty [.setAccessToken "xaat-123"]).isOk = true := rfl
example : (newClient Env.empty [.setAccessToken "xapt-123", .setOrgID "awkward-identifier-c3po"]).isOk = true := rfl
example : (newClient { url := none, token := some "xapt-123", orgID := some "o" } []).isOk = true := rfl
example : newClient { url := none, token := some "xapt-123", orgID := some "o" } [.setNoEnv] = .error .missingAccessToken := rfl
example : (newClient { url := none, token := some "xapt-123", orgID := none } []).isOk = false := rfl
example : (newClient Env.empty [.setURL "http://ax.local", .setAccessToken "xapt-123"]).isOk = true := rfl
example : (newClient { url := some (cloudURL ++ "/"), token := some "xapt-123", orgID := some "o" } []).isOk = true := rfl

/-! ## Request builder (modelled from the spec) -/

/-- Modelled from the spec: a transient request — method, resolved URL,
headers, and the JSON body if any. -/
structure Request where
  method : String
  url : String
  headers : List (String × String)
  body : Option Json

/-- Modelled from the spec: the headers always set (`Authorization`,
`Accept`, `User-Agent`), `X-Axiom-Org-Id` when an organization id is
configured, and `Content-Type: application/json` exactly when a structured
body is JSON-encoded. -/
def requestHeaders (c : Config) (body : Option Json) : List (String × String) :=
  [("Authorization", "Bearer " ++ c.accessToken),
   ("Accept", "application/json"),
   ("User-Agent", c.userAgent)]
    ++ (if c.orgID = "" then [] else [("X-Axiom-Org-Id", c.orgID)])
    ++ (match body with | none => [] | some _ => [("Content-Type", "application/json")])

/-- Modelled from the spec: `newRequest` — pre-flight, the Authorizer is
consulted: an API token on a path outside the allowlist fails with
`ErrUnprivilegedToken`; otherwise the request is built by resolving the
path against the base URL, with a nil body left absent (not an empty
stream).  (URL parse failures concern malformed path syntax and are
outside this model, which treats paths as opaque strings.) -/
def newRequest (c : Config) (method path : String) (body : Option Json) :
    Except ClientError Request :=
  if isAPIToken c.accessToken && !validOnlyAPITokenPaths path then
    .error .unprivilegedToken
  else
    .ok { method := method, url := c.baseURL ++ path,
          headers := requestHeaders c body, body := body }

/-! ## HTTP attempts, retry/backoff driver (modelled from the spec) -/

/-- The limit-related headers of a server response: which kind's header set
was present, the raw scope header value, and the numeric
limit/remaining/reset (Unix seconds) values. -/
structure LimitHeaders where
  limitType : LimitType
  scope : String
  limit : Nat
  remaining : Nat
  reset : Int
deriving DecidableEq, Repr

/-- A server response as seen by the response processor: HTTP status,
optional limit header set, and the decoded server message (the JSON
`message` field for JSON bodies, the status text otherwise). -/
structure HttpResponse where
  status : Nat
  limitHeaders : Option LimitHeaders
  message : String
deriving DecidableEq, Repr

/-- The outcome of a single HTTP attempt: a response, or a network error
from the transport (which may be a context cancellation). -/
inductive Outcome where
  | resp (r : HttpResponse)
  | netErr (canceled : Bool)
deriving DecidableEq, Repr

/-- Modelled from the spec: retriable outcomes — a non-cancellation
network error, or an HTTP 5xx status among 500, 502, 503, 504. -/
def isRetriable : Outcome → Bool
  | .netErr canceled => !canceled
  | .resp r => r.status == 500 || r.status == 502 || r.status == 503 || r.status == 504

/-- Modelled from the spec: the retry policy attempts up to 4 total. -/
def maxAttempts : Nat := 4

/-- The retry loop: `fuel` retries remain after the current attempt
(numbered from 1); the stub maps attempt numbers to outcomes.  Returns the
final outcome, the total number of attempts made, and the backoff waits
slept between attempts (`base * 2^(attempt-1)` after attempt number
`attempt`). -/
def retryLoop (stub : Nat → Outcome) (base : Nat) :
    Nat → Nat → List Nat → Outcome × Nat × List Nat
  | 0, attempt, waits => (stub attempt, attempt, waits)
  | fuel + 1, attempt, waits =>
    let o := stub attempt
    if isRetriable o then
      retryLoop stub base fuel (attempt + 1) (waits ++ [base * 2 ^ (attempt - 1)])
    else
      (o, attempt, waits)

/-- Modelled from the spec: the retry/backoff driver — run attempts
starting at 1, retry a retriable outcome after waiting `base * 2^(attempt-1)`,
stop at the first non-retriable outcome or after `maxAttempts` total
attempts, returning the last outcome as-is. -/
def retryDo (stub : Nat → Outcome) (base : Nat) : Outcome × Nat × List Nat :=
  retryLoop stub base (maxAttempts - 1) 1 []

/-! ## Response processing, limit store and the orchestrator
(modelled from the spec) -/

/-- Modelled from the spec: build a Limit from the limit headers of a
response, mapping the scope header value through the wire table. -/
def parseLimit (r : HttpResponse) : Option Limit :=
  r.limitHeaders.map fun h =>
    { scope := limitScopeFromString h.scope, limitType := h.limitType,
      limit := h.limit, remaining := h.remaining, reset := h.reset }

/-- Modelled from the spec: the limit store is the list of most recent
Limit snapshots, keyed by (scope, kind); an upsert replaces the entry for
its key. -/
def storeSet (s : List Limit) (l : Limit) : List Limit :=
  l :: s.filter (fun e => !(e.scope == l.scope && e.limitType == l.limitType))

/-- Modelled from the spec: the conservative pre-flight consultation — the
most recently stored rate-kind Limit with `remaining == 0` whose reset
time is still in the future, if any. -/
def shortCircuitLimit (s : List Limit) (now : Int) : Option Limit :=
  s.find? (fun l => l.limitType == .rate && l.remaining == 0 && decide (now < l.reset))

/-- Modelled from the spec: the message of a locally produced
`LimitError`, e.g. `anonymous rate limit exceeded, not making remote
request`. -/
def shortCircuitMessage (l : Limit) : String :=
  l.scope.string ++ " " ++ l.limitType.string ++ " limit exceeded, not making remote request"

/-- Modelled from the spec: response classification — 401 →
`ErrUnauthenticated`, 403 → `ErrUnauthorized`, 429 → `LimitError` from the
parsed Limit and the decoded server message, other ≥ 400 → `APIError`,
else success.  Also yields the Limit attached to the returned Response
(the zero Limit when the server reported none). -/
def processResponse (r : HttpResponse) : Except ClientError HttpResponse × Limit :=
  let attached := (parseLimit r).getD Limit.zero
  let res :=
    if r.status = 401 then .error .unauthenticated
    else if r.status = 403 then .error .unauthorized
    else if r.status = 429 then .error (.limitError attached r.message)
    else if 400 ≤ r.status then .error (.apiError r.status r.message)
    else .ok r
  (res, attached)

/-- The observable result of one `Call`: the classified result, the Limit
carried by the returned Response, the number of HTTP requests actually
issued, and the limit store after the call. -/
structure CallResult where
  result : Except ClientError HttpResponse
  limit : Limit
  httpCalls : Nat
  store : List Limit
deriving Repr

/-- Modelled from the spec: `do` — unless no-limiting is on, short-circuit
with a local `LimitError` when a stored Limit is exhausted and its reset
is in the future, issuing no HTTP request; otherwise drive the attempts
through the retry policy, store the parsed limit headers, and classify the
response. -/
def doCall (c : Config) (store : List Limit) (now : Int) (stub : Nat → Outcome)
    (base : Nat) : CallResult :=
  match (if c.noLimiting then none else shortCircuitLimit store now) with
  | some l =>
    { result := .error (.limitError l (shortCircuitMessage l)), limit := l,
      httpCalls := 0, store := store }
  | none =>
    let z := retryDo stub base
    match z.1 with
    | .netErr _ =>
      { result := .error .netError, limit := Limit.zero, httpCalls := z.2.1, store := store }
    | .resp r =>
      let pr := processResponse r
      let store' := match parseLimit r with
        | some l => storeSet store l
        | none => store
      { result := pr.1, limit := pr.2, httpCalls := z.2.1, store := store' }

/-- Modelled from the spec: `Call` — build the request (consulting the
Authorizer pre-flight) and, only when that succeeds, run `do`.  A
pre-flight failure issues no HTTP request. -/
def call (c : Config) (store : List Limit) (now : Int) (method path : String)
    (body : Option Json) (stub : Nat → Outcome) (base : Nat) : CallResult :=
  match newRequest c method path body with
  | .error e => { result := .error e, limit := Limit.zero, httpCalls := 0, store := store }
  | .ok _ => doCall c store now stub base

/-! ## Concrete scenario material (mirroring the fixtures of
src/axiom/client_test.go) -/

/-- A bare response with the given status, no limit headers and an empty
message. -/
def respOf (status : Nat) : HttpResponse :=
  { status := status, limitHeaders := none, message := "" }

/-- The stub of `TestClient_do_Backoff`: 500, 502, 504 on the first three
attempts, 200 afterwards. -/
def backoffStub : Nat → Outcome := fun n =>
  if n = 1 then .resp (respOf 500)
  else if n = 2 then .resp (respOf 502)
  else if n = 3 then .resp (respOf 504)
  else .resp (respOf 200)

/-- The rate-limit header set of the rate-limit tests: scope `anonymous`,
limit 1000, remaining 0, the given reset time. -/
def anonHeaders (reset : Int) : LimitHeaders :=
  { limitType := .rate, scope := "anonymous", limit := 1000, remaining := 0, reset := reset }

/-- The Limit those headers parse to. -/
def anonLimit (reset : Int) : Limit :=
  { scope := .anonymous, limitType := .rate, limit := 1000, remaining := 0, reset := reset }

/-- A 200 response carrying the exhausted anonymous rate-limit headers. -/
def okLimitedResp (reset : Int) : HttpResponse :=
  { status := 200, limitHeaders := some (anonHeaders reset), message := "" }

/-- The 429 response of `TestClient_do_RateLimit`: exhausted anonymous
rate-limit headers and the decoded message `rate limit exceeded`. -/
def resp429 (reset : Int) : HttpResponse :=
  { status := 429, limitHeaders := some (anonHeaders reset), message := "rate limit exceeded" }

/-- A config with a personal token and an organization id, as built by the
test `setup` helper (environment disabled, strict decoding on). -/
def testConfig : Config :=
  { baseURL := "http://ax.local", accessToken := "xapt-XXXXXXXX-XXXX-XXXX-XXXX-XXXXXXXXXXXX",
    orgID := "awkward-identifier-c3po", userAgent := "axiom-go",
    strictDecoding := true, noEnv := true, noLimiting := false }

/-! ## Helper lemmas about the retry loop -/

/-- The attempt number the retry loop stops at is bounded by the starting
attempt number plus the remaining fuel. -/
theorem retryLoop_attempts_le (stub : Nat → Outcome) (base : Nat) :
    ∀ fuel attempt waits, (retryLoop stub base fuel attempt waits).2.1 ≤ attempt + fuel := by
  intro fuel
  induction fuel with
  | zero => intro attempt waits; simp [retryLoop]
  | succ n ih =>
    intro attempt waits
    simp only [retryLoop]
    split
    · exact le_trans (ih (attempt + 1) _) (by omega)
    · simp

/-- The retry loop only consults the stub at attempt numbers between the
starting attempt and the starting attempt plus the fuel. -/
theorem retryLoop_congr (stub stub' : Nat → Outcome) (base : Nat) :
    ∀ fuel attempt waits, (∀ n, attempt ≤ n → n ≤ attempt + fuel → stub n = stub' n) →
      retryLoop stub base fuel attempt waits = retryLoop stub' base fuel attempt waits := by
  intro fuel
  induction fuel with
  | zero =>
    intro attempt waits h
    simp [retryLoop, h attempt le_rfl (by omega)]
  | succ n ih =>
    intro attempt waits h
    have hs : stub attempt = stub' attempt := h attempt le_rfl (by omega)
    simp only [retryLoop, hs]
    split
    · exact ih (attempt + 1) _ (fun m h1 h2 => h m (by omega) (by omega))
    · rfl

/-! ## Helper lemmas about the path matcher -/

/-- A character list without `'?'` is returned whole by `splitAtQuery`,
with no query part. -/
theorem splitAtQuery_of_not_mem (cs : List Char) (h : '?' ∉ cs) :
    splitAtQuery cs = (cs, none) := by
  induction cs with
  | nil => rfl
  | cons c cs ih =>
    have hc : c ≠ '?' := fun hc => h (hc ▸ List.mem_cons_self c cs)
    have hcs : '?' ∉ cs := fun hm => h (List.mem_cons_of_mem c hm)
    simp [splitAtQuery, fun hh : c = '?' => hc hh, ih hcs]

/-- A list is a prefix of itself followed by anything. -/
theorem isPrefixOf_append_self (l r : List Char) : List.isPrefixOf l (l ++ r) = true := by
  induction l with
  | nil => simp [List.isPrefixOf]
  | cons c cs ih => simp [List.isPrefixOf, ih]

/-- Scanning a slash-free name followed by `/ingest` or `/query` succeeds. -/
theorem nameSegRest_append (nm tl : List Char) (h : '/' ∉ nm)
    (htl : tl = "ingest".toList ∨ tl = "query".toList) :
    nameSegRest (nm ++ '/' :: tl) = true := by
  induction nm with
  | nil =>
    rcases htl with h1 | h1 <;> simp [nameSegRest, h1]
  | cons c cs ih =>
    have hc : ¬c = '/' := fun hc => h (hc ▸ List.mem_cons_self c cs)
    have hcs : '/' ∉ cs := fun hm => h (List.mem_cons_of_mem c hm)
    simp [nameSegRest, hc, ih hcs]

/-- A non-empty slash-free name followed by `/ingest` or `/query` is
accepted by `nameSeg`. -/
theorem nameSeg_append (nm tl : List Char) (hne : nm ≠ []) (h : '/' ∉ nm)
    (htl : tl = "ingest".toList ∨ tl = "query".toList) :
    nameSeg (nm ++ '/' :: tl) = true := by
  cases nm with
  | nil => exact absurd rfl hne
  | cons c cs =>
    have hc : ¬c = '/' := fun hc => h (hc ▸ List.mem_cons_self c cs)
    have hcs : '/' ∉ cs := fun hm => h (List.mem_cons_of_mem c hm)
    simp [nameSeg, hc, nameSegRest_append cs tl hcs htl]

/-- A path whose character data decomposes as the datasets stem, a
non-empty slash-and-question-mark-free name, a slash and one of the two
allowed operations is accepted by the allowlist. -/
theorem validOnlyAPITokenPaths_of_decomp (s : String) (nm tl : List Char)
    (hdata : s.toList = datasetsStem ++ (nm ++ '/' :: tl))
    (htl : tl = "ingest".toList ∨ tl = "query".toList)
    (hne : nm ≠ []) (hslash : '/' ∉ nm) (hq : '?' ∉ nm) :
    validOnlyAPITokenPaths s = true := by
  have hqtl : '?' ∉ tl := by
    rcases htl with h1 | h1 <;> rw [h1] <;> decide
  have hmem : '?' ∉ datasetsStem ++ (nm ++ '/' :: tl) := by
    intro hm
    rcases List.mem_append.mp hm with h1 | h1
    · revert h1; decide
    · rcases List.mem_append.mp h1 with h2 | h2
      · exact hq h2
      · rcases List.mem_cons.mp h2 with h3 | h3
        · exact absurd h3 (by decide)
        · exact hqtl h3
  unfold validOnlyAPITokenPaths
  rw [hdata, splitAtQuery_of_not_mem _ hmem]
  simp [isPrefixOf_append_self, List.drop_left, allowedTail,
    nameSeg_append nm tl hne hslash htl]

/-! ## Claim theorems -/

/-- C5: the API-token path allowlist accepts exactly
`/api/v1/datasets/{name}/ingest`, `/api/v1/datasets/{name}/query` with a
non-empty `{name}`, and `/api/v1/datasets/_apl`, each optionally followed
by a query string: it accepts the table of `TestAPITokenPathRegex`
(including `/api/v1/datasets/test/ingest?timestamp-format=unix`), rejects
`/api/v1/datasets//query`, `/api/v1/datasets/query` and
`/api/v1/datasets/test/elastic`, and accepts every non-empty
slash-and-question-mark-free `{name}` on the ingest and query forms. -/
theorem apiTokenPathRegex_matches :
    validOnlyAPITokenPaths "/api/v1/datasets/test/ingest" = true
    ∧ validOnlyAPITokenPaths "/api/v1/datasets/test/ingest?timestamp-format=unix" = true
    ∧ validOnlyAPITokenPaths "/api/v1/datasets/test/query" = true
    ∧ validOnlyAPITokenPaths "/api/v1/datasets/_apl" = true
    ∧ validOnlyAPITokenPaths "/api/v1/datasets/test/query?nocache=true" = true
    ∧ validOnlyAPITokenPaths "/api/v1/datasets/_apl?nocache=true" = true
    ∧ validOnlyAPITokenPaths "/api/v1/datasets//query" = false
    ∧ validOnlyAPITokenPaths "/api/v1/datasets/query" = false
    ∧ validOnlyAPITokenPaths "/api/v1/datasets/test/elastic" = false
    ∧ (∀ name : String, name.toList ≠ [] → '/' ∉ name.toList → '?' ∉ name.toList →
        validOnlyAPITokenPaths ("/api/v1/datasets/" ++ name ++ "/ingest") = true
        ∧ validOnlyAPITokenPaths ("/api/v1/datasets/" ++ name ++ "/query") = true) := by
  refine ⟨by decide, by decide, by decide, by decide, by decide, by decide, by decide,
    by decide, by decide, ?_⟩
  intro name hne hslash hq
  refine ⟨validOnlyAPITokenPaths_of_decomp _ name.toList "ingest".toList ?_
      (Or.inl rfl) hne hslash hq,
    validOnlyAPITokenPaths_of_decomp _ name.toList "query".toList ?_
      (Or.inr rfl) hne hslash hq⟩
  · show ("/api/v1/datasets/" ++ name ++ "/ingest").data = _
    simp [String.data_append, datasetsStem]
  · show ("/api/v1/datasets/" ++ name ++ "/query").data = _
    simp [String.data_append, datasetsStem]

/-- C5 witness: the general family instantiated at the dataset name
`test`. -/
theorem apiTokenPathRegex_matches_witness :
    validOnlyAPITokenPaths ("/api/v1/datasets/" ++ "test" ++ "/ingest") = true :=
  (apiTokenPathRegex_matches.2.2.2.2.2.2.2.2.2 "test" (by decide) (by decide) (by decide)).1

/-- C9: `AggregationOp.String` is total — every value at or beyond the
name table (i ≥ 14 = len(_AggregationOp_index)-1) takes the fallback
`AggregationOp(i)` without any out-of-bounds index (for i < 14 both table
accesses i and i+1 are within the 15-entry index array), the empty
aggregation op (0) stringifies to the empty string, and each of the
thirteen named ops maps to its name slice. -/
theorem aggregationOpString_total (i : Nat) (h : 14 ≤ i) :
    aggregationOpString i = "AggregationOp(" ++ toString i ++ ")"
    ∧ (∀ j, j < 14 → j < aggregationOpIndex.length ∧ j + 1 < aggregationOpIndex.length)
    ∧ aggregationOpString 0 = ""
    ∧ aggregationOpString 1 = "count"
    ∧ aggregationOpString 2 = "distinct"
    ∧ aggregationOpString 3 = "sum"
    ∧ aggregationOpString 4 = "avg"
    ∧ aggregationOpString 5 = "min"
    ∧ aggregationOpString 6 = "max"
    ∧ aggregationOpString 7 = "topk"
    ∧ aggregationOpString 8 = "percentiles"
    ∧ aggregationOpString 9 = "histogram"
    ∧ aggregationOpString 10 = "variance"
    ∧ aggregationOpString 11 = "stdev"
    ∧ aggregationOpString 12 = "countif"
    ∧ aggregationOpString 13 = "distinctif" := by
  refine ⟨?_, ?_, rfl, rfl, rfl, rfl, rfl, rfl, rfl, rfl, rfl, rfl, rfl, rfl, rfl, rfl⟩
  · have hc : aggregationOpIndex.length - 1 ≤ i := by
      simpa [aggregationOpIndex] using h
    unfold aggregationOpString
    rw [if_pos hc]
  · intro j hj
    have hlen : aggregationOpIndex.length = 15 := by rfl
    omega

/-- C9 witness: the fallback at the first out-of-range value, 14. -/
theorem aggregationOpString_total_witness :
    aggregationOpString 14 = "AggregationOp(" ++ toString 14 ++ ")" :=
  (aggregationOpString_total 14 (by norm_num)).1

/-- C10: `UserRole` JSON serialization round-trips for all six constants;
every string other than the five named role strings unmarshals to
`RoleCustom`; and unmarshalling succeeds exactly on JSON strings. -/
theorem userRole_json_roundTrip :
    (∀ r : UserRole, UserRole.unmarshalJSON (UserRole.marshalJSON r) = .ok r)
    ∧ (∀ s : String, s ≠ "none" → s ≠ "read-only" → s ≠ "user" → s ≠ "admin" → s ≠ "owner" →
        userRoleFromString s = .custom)
    ∧ (∀ j : Json, (∃ r, UserRole.unmarshalJSON j = .ok r) ↔ ∃ s, j = .str s) := by
  refine ⟨?_, ?_, ?_⟩
  · intro r; cases r <;> rfl
  · intro s h1 h2 h3 h4 h5
    simp [userRoleFromString, UserRole.string, h1, h2, h3, h4, h5]
  · intro j
    cases j <;> simp [UserRole.unmarshalJSON]

/-- C10 witness: an unnamed role string unmarshals to the custom role. -/
theorem userRole_json_roundTrip_witness :
    userRoleFromString "root" = .custom :=
  userRole_json_roundTrip.2.1 "root" (by decide) (by decide) (by decide) (by decide) (by decide)

/-- C1: a request made with an API token (`xaat-` prefix) on a path
outside the API-token allowlist fails pre-flight with
`ErrUnprivilegedToken` and issues no HTTP request; tokens that are not API
tokens (personal and unknown) pass authorization for every path. -/
theorem apiToken_unprivileged_gate (c : Config) (store : List Limit) (now : Int)
    (method path : String) (body : Option Json) (stub : Nat → Outcome) (base : Nat)
    (hapi : isAPIToken c.accessToken = true)
    (hpath : validOnlyAPITokenPaths path = false) :
    call c store now method path body stub base =
      { result := .error .unprivilegedToken, limit := Limit.zero, httpCalls := 0, store := store }
    ∧ (∀ c' : Config, isAPIToken c'.accessToken = false →
        newRequest c' method path body =
          .ok { method := method, url := c'.baseURL ++ path,
                headers := requestHeaders c' body, body := body }) := by
  constructor
  · simp [call, newRequest, hapi, hpath]
  · intro c' h'
    simp [newRequest, h']

/-- C1 witness: an API token calling `/v1/user` is rejected locally with
zero HTTP requests. -/
theorem apiToken_unprivileged_gate_witness :
    call { defaultConfig with accessToken := "xaat-123" } [] 0 "GET" "/v1/user" none
        (fun _ => .netErr false) 0 =
      { result := .error .unprivilegedToken, limit := Limit.zero, httpCalls := 0, store := [] } :=
  (apiToken_unprivileged_gate { defaultConfig with accessToken := "xaat-123" } [] 0 "GET"
    "/v1/user" none (fun _ => .netErr false) 0 rfl (by decide)).1

/-- C2: the retry driver makes at most 4 total HTTP attempts for any
sequence of outcomes, never consults the stub beyond attempt 4, and on the
stub returning 500, 502, 504, 200 it makes exactly 4 attempts, waits
`base * 2^(attempt-1)` between attempts, and returns the 200 response. -/
theorem retry_backoff_policy (base : Nat) (stub : Nat → Outcome)
    (h1 : stub 1 = .resp (respOf 500)) (h2 : stub 2 = .resp (respOf 502))
    (h3 : stub 3 = .resp (respOf 504)) (h4 : stub 4 = .resp (respOf 200)) :
    (∀ s : Nat → Outcome, (retryDo s base).2.1 ≤ 4)
    ∧ (∀ s s' : Nat → Outcome, (∀ n, 1 ≤ n → n ≤ 4 → s n = s' n) →
        retryDo s base = retryDo s' base)
    ∧ retryDo stub base = (.resp (respOf 200), 4, [base * 2 ^ 0, base * 2 ^ 1, base * 2 ^ 2]) := by
  refine ⟨?_, ?_, ?_⟩
  · intro s
    simpa [retryDo, maxAttempts] using retryLoop_attempts_le s base 3 1 []
  · intro s s' hss
    exact retryLoop_congr s s' base 3 1 [] (fun n hn1 hn2 => hss n hn1 (by omega))
  · simp [retryDo, maxAttempts, retryLoop, h1, h2, h3, h4, isRetriable, respOf]

/-- C2 witness: the backoff stub at base 7 — four attempts, the 200
response, waits 7, 14, 28. -/
theorem retry_backoff_policy_witness :
    retryDo backoffStub 7 = (.resp (respOf 200), 4, [7 * 2 ^ 0, 7 * 2 ^ 1, 7 * 2 ^ 2]) :=
  (retry_backoff_policy 7 backoffStub rfl rfl rfl rfl).2.2

/-- C4: a 429 response carrying the exhausted anonymous rate-limit headers
and message `rate limit exceeded` yields a `LimitError` with exactly the
parsed Limit and message, the returned Response carries the same Limit
(which is also stored), and the error stringifies to
`rate limit exceeded: try again in 59m59s` when 3599 whole seconds remain
until the reset. -/
theorem rateLimit_remote_429 (c : Config) (now reset strTime : Int)
    (stub : Nat → Outcome) (base : Nat)
    (hstub : stub 1 = .resp (resp429 reset))
    (hstr : reset - strTime = 3599) :
    doCall c [] now stub base =
      { result := .error (.limitError (anonLimit reset) "rate limit exceeded"),
        limit := anonLimit reset, httpCalls := 1, store := [anonLimit reset] }
    ∧ limitErrorString (anonLimit reset) "rate limit exceeded" strTime =
        "rate limit exceeded: try again in 59m59s" := by
  have hp : retryDo stub base = (.resp (resp429 reset), 1, []) := by
    simp [retryDo, maxAttempts, retryLoop, hstub, isRetriable, resp429]
  constructor
  · simp [doCall, shortCircuitLimit, hp, processResponse, resp429, storeSet, parseLimit,
      anonHeaders, anonLimit, limitScopeFromString, Limit.zero]
  · have hx : (anonLimit reset).reset = reset := rfl
    simp only [limitErrorString, secondsUntil, hx, hstr]
    rfl

/-- C4 witness: the 429 scenario at reset time 3600, one second after the
epoch. -/
theorem rateLimit_remote_429_witness :
    doCall testConfig [] 0 (fun _ => .resp (resp429 3600)) 0 =
      { result := .error (.limitError (anonLimit 3600) "rate limit exceeded"),
        limit := anonLimit 3600, httpCalls := 1, store := [anonLimit 3600] } :=
  (rateLimit_remote_429 testConfig 0 3600 1 (fun _ => .resp (resp429 3600)) 0 rfl
    (by norm_num)).1

/-- C3: after a response stores the exhausted anonymous rate Limit, a
second call with limiting enabled short-circuits locally with a
`LimitError` whose message is
`anonymous rate limit exceeded, not making remote request`, issues no HTTP
request, and stringifies with `: try again in <duration>` (59m59s at 3599
remaining seconds); with no-limiting set the same second call is sent and
succeeds. -/
theorem rateLimit_shortCircuit (c : Config) (hNL : c.noLimiting = false)
    (now later reset strTime : Int) (hfut : later < reset) (hstr : reset - strTime = 3599)
    (stub stub2 : Nat → Outcome) (base : Nat)
    (hstub : stub 1 = .resp (okLimitedResp reset)) :
    doCall c [] now stub base =
      { result := .ok (okLimitedResp reset), limit := anonLimit reset,
        httpCalls := 1, store := [anonLimit reset] }
    ∧ doCall c [anonLimit reset] later stub2 base =
      { result := .error (.limitError (anonLimit reset)
          "anonymous rate limit exceeded, not making remote request"),
        limit := anonLimit reset, httpCalls := 0, store := [anonLimit reset] }
    ∧ limitErrorString (anonLimit reset)
        "anonymous rate limit exceeded, not making remote request" strTime =
      "anonymous rate limit exceeded, not making remote request: try again in 59m59s"
    ∧ doCall { c with noLimiting := true } [anonLimit reset] later stub base =
      { result := .ok (okLimitedResp reset), limit := anonLimit reset,
        httpCalls := 1, store := [anonLimit reset] } := by
  have hp : retryDo stub base = (.resp (okLimitedResp reset), 1, []) := by
    simp [retryDo, maxAttempts, retryLoop, hstub, isRetriable, okLimitedResp]
  have hd : decide (later < reset) = true := decide_eq_true hfut
  refine ⟨?_, ?_, ?_, ?_⟩
  · simp [doCall, hNL, shortCircuitLimit, hp, processResponse, okLimitedResp, storeSet,
      parseLimit, anonHeaders, anonLimit, limitScopeFromString, Limit.zero]
  · simp [doCall, hNL, shortCircuitLimit, List.find?, anonLimit, hd, shortCircuitMessage,
      LimitScope.string, LimitType.string]
  · have hx : (anonLimit reset).reset = reset := rfl
    simp only [limitErrorString, secondsUntil, hx, hstr]
    rfl
  · simp [doCall, hp, processResponse, okLimitedResp, storeSet, parseLimit, anonHeaders,
      anonLimit, limitScopeFromString, Limit.zero, List.filter]

/-- C3 witness: the short-circuit of the second call at concrete times
(stored reset 3600, current time 1). -/
theorem rateLimit_shortCircuit_witness :
    doCall testConfig [anonLimit 3600] 1 (fun _ => .netErr false) 0 =
      { result := .error (.limitError (anonLimit 3600)
          "anonymous rate limit exceeded, not making remote request"),
        limit := anonLimit 3600, httpCalls := 0, store := [anonLimit 3600] } :=
  (rateLimit_shortCircuit testConfig rfl 0 1 3600 1 (by norm_num) (by norm_num)
    (fun _ => .resp (okLimitedResp 3600)) (fun _ => .netErr false) 0 rfl).2.1

/-- An API token is non-empty (it starts with `xaat-`). -/
theorem isAPIToken_ne_empty (t : String) (h : isAPIToken t = true) : t ≠ "" := by
  intro he
  rw [he] at h
  exact absurd h (by decide)

/-- A personal token is non-empty (it starts with `xapt-`). -/
theorem isPersonalToken_ne_empty (t : String) (h : isPersonalToken t = true) : t ≠ "" := by
  intro he
  rw [he] at h
  exact absurd h (by decide)

/-- A personal token is not an API token: the prefixes differ at the third
character. -/
theorem isPersonalToken_not_api (t : String) (h : isPersonalToken t = true) :
    isAPIToken t = false := by
  unfold isPersonalToken at h
  obtain ⟨u, hu⟩ := List.isPrefixOf_iff_prefix.mp h
  unfold isAPIToken
  rw [← hu]
  simp [List.isPrefixOf]

/-- C6: client construction fails with `ErrMissingAccessToken` when no
token is configured, fails with `ErrMissingOrganizationID` when a personal
token is used against the cloud base URL without an organization id,
never requires an organization id for an API token, and succeeds for a
personal token combined with an organization id or a non-cloud base
URL. -/
theorem newClient_validation :
    newClient Env.empty [] = .error .missingAccessToken
    ∧ (∀ env opts, (assembleConfig env opts).accessToken = "" →
        newClient env opts = .error .missingAccessToken)
    ∧ (∀ t, isPersonalToken t = true →
        newClient Env.empty [.setAccessToken t] = .error .missingOrganizationID)
    ∧ (∀ c : Config, isAPIToken c.accessToken = true → validateConfig c = .ok c)
    ∧ (∀ t id, isPersonalToken t = true → id ≠ "" →
        newClient Env.empty [.setAccessToken t, .setOrgID id] =
          .ok { defaultConfig with accessToken := t, orgID := id })
    ∧ (∀ t u, isPersonalToken t = true → normalizeURL u ≠ cloudURL →
        newClient Env.empty [.setURL u, .setAccessToken t] =
          .ok { defaultConfig with baseURL := normalizeURL u, accessToken := t }) := by
  refine ⟨rfl, ?_, ?_, ?_, ?_, ?_⟩
  · intro env opts hat
    simp [newClient, validateConfig, hat]
  · intro t ht
    have hne : t ≠ "" := isPersonalToken_ne_empty t ht
    have hapi : isAPIToken t = false := isPersonalToken_not_api t ht
    simp [newClient, assembleConfig, applyEnv, Env.empty, applyOption, validateConfig,
      defaultConfig, hne, hapi]
  · intro c hapi
    have hne : c.accessToken ≠ "" := isAPIToken_ne_empty c.accessToken hapi
    simp [validateConfig, hne, hapi]
  · intro t id ht hid
    have hne : t ≠ "" := isPersonalToken_ne_empty t ht
    simp [newClient, assembleConfig, applyEnv, Env.empty, applyOption, validateConfig,
      defaultConfig, hne, hid]
  · intro t u ht hu
    have hne : t ≠ "" := isPersonalToken_ne_empty t ht
    have hapi : isAPIToken t = false := isPersonalToken_not_api t ht
    simp [newClient, assembleConfig, applyEnv, Env.empty, applyOption, validateConfig,
      defaultConfig, hne, hapi, hu]

/-- C6 witness: the placeholder personal token of the test file without an
organization id on the default cloud URL. -/
theorem newClient_validation_witness :
    newClient Env.empty [.setAccessToken "xapt-XXXXXXXX-XXXX-XXXX-XXXX-XXXXXXXXXXXX"] =
      .error .missingOrganizationID :=
  newClient_validation.2.2.1 "xapt-XXXXXXXX-XXXX-XXXX-XXXX-XXXXXXXXXXXX" (by decide)

/-- C7: configuration precedence is deterministic — environment variables
override the defaults, programmatic options override environment values,
and with the no-env option active all three environment variables are
ignored, so a client built with only `AXIOM_TOKEN`/`AXIOM_ORG_ID` in the
environment and the no-env option fails with `ErrMissingAccessToken`. -/
theorem config_precedence :
    (∀ u t o, assembleConfig { url := some u, token := some t, orgID := some o } [] =
        { defaultConfig with baseURL := normalizeURL u, accessToken := t, orgID := o })
    ∧ (∀ env t, (assembleConfig env [.setAccessToken t]).accessToken = t)
    ∧ (∀ env u, (assembleConfig env [.setURL u]).baseURL = normalizeURL u)
    ∧ (∀ env id, (assembleConfig env [.setOrgID id]).orgID = id)
    ∧ (∀ env, assembleConfig env [.setNoEnv] = { defaultConfig with noEnv := true })
    ∧ (∀ t o, newClient { url := none, token := some t, orgID := some o } [.setNoEnv] =
        .error .missingAccessToken) :=
  ⟨fun _ _ _ => rfl, fun _ _ => rfl, fun _ _ => rfl, fun _ _ => rfl, fun _ => rfl,
    fun _ _ => rfl⟩

/-- C8: a nil body builds an HTTP request with no body at all and no
`Content-Type` header; a structured body is carried as JSON with
`Content-Type: application/json` set. -/
theorem newRequest_body_contentType (c : Config) (method path : String)
    (body : Option Json) (req : Request)
    (h : newRequest c method path body = .ok req) :
    req.body = body
    ∧ req.headers.lookup "Content-Type" =
        (match body with | none => none | some _ => some "application/json") := by
  unfold newRequest at h
  split at h
  · exact Except.noConfusion h
  · rw [Except.ok.injEq] at h
    subst h
    refine ⟨rfl, ?_⟩
    rcases body with _ | j <;> by_cases horg : c.orgID = "" <;>
      simp [requestHeaders, horg, List.lookup]

/-- C8 witness: a nil-body GET on the test config carries no body and no
`Content-Type` header. -/
theorem newRequest_body_contentType_witness :
    ({ method := "GET", url := testConfig.baseURL ++ "/",
       headers := requestHeaders testConfig none, body := none } : Request).body = none
    ∧ ({ method := "GET", url := testConfig.baseURL ++ "/",
         headers := requestHeaders testConfig none, body := none } : Request).headers.lookup
          "Content-Type" = none :=
  newRequest_body_contentType testConfig "GET" "/" none
    { method := "GET", url := testConfig.baseURL ++ "/",
      headers := requestHeaders testConfig none, body := none } rfl
